import Mathlib

/-!
# The differential-drive controller of `extmod/modrobotics.c`

A shallow embedding of the `DriveBase` class: its constructor
(`robotics_DriveBase_make_new`) and its three methods (`robotics_DriveBase_drive`,
`robotics_DriveBase_stop`, `robotics_DriveBase_drive_time`).

* Numbers (`float_t`, `float`, the result of `mp_obj_get_num`) are the elements of a type
  `α` that has the operations the source uses (`+`, `-`, `*`, `/`, `<`, the literals and
  the integers); the definitions assume no law about them, and `M_PI` is a parameter.
  Two readings are used.  In a linear ordered field, such as `ℝ` with `Real.pi`, the
  expressions are read exactly, without rounding.  In `Binary32` every operation is
  followed by the rounding to the 24 significant bits of a `float`.
* The conversions that C makes where a value changes its type are explicit: the
  assignment of a number to a `float_t` field (`to_float_t`), the passing of a number to
  the unsigned integer parameter of the delay (`to_mp_uint`), the conversion of an
  integer to the after-stop enumeration (`to_after_stop`).
* The actuator layer and the delay primitive are external collaborators.  They are a
  parameter `hw : Actuators σ α` acting on an arbitrary state `σ`; each call returns an
  arbitrary `pbio_error_t`, so that every combination of successes and failures is
  covered.  Every call made by the controller is also appended to a log.
* A raised exception (`pb_assert` on an error, a `TypeError` of the runtime) ends the
  current function: the functions return `Except mp_exc β` next to the world.
* For the question whether a method changes the object behind its `self` pointer, the
  three method bodies are also given on a machine that holds the object
  (`Machine.drive`, `Machine.stop`, `Machine.drive_time`).
-/

namespace Robotics

/-! ## Types of the collaborators -/

/-- Modelled from the spec: the result codes of the actuator layer (`pbio/error.h` is
not among the sources).  `PBIO_ERROR_INVALID_ARG` is `InvalidArgument`,
`PBIO_ERROR_NO_DEV` is `NotConnected`, `PBIO_ERROR_IO` and `PBIO_ERROR_FAILED` are
hardware errors. -/
inductive pbio_error_t where
  | PBIO_SUCCESS
  | PBIO_ERROR_FAILED
  | PBIO_ERROR_INVALID_ARG
  | PBIO_ERROR_IO
  | PBIO_ERROR_NO_DEV
  deriving DecidableEq, Repr

/-- A port identifier: the numeric value of the `pbio_port_t` enumerator (printed with
`%c` by the source, so 65 is port A, 66 is port B). -/
abbrev pbio_port_t := Nat

/-- The after-stop selector, a C enumeration, as its numeric value. -/
abbrev pbio_motor_after_stop_t := Int

/-- The conversion of the integer read by `mp_obj_get_int` to the C enumeration
`pbio_motor_after_stop_t`, a 32-bit unsigned type as it has no negative enumerator: the
value modulo `2 ^ 32`. -/
def to_after_stop (n : Int) : pbio_motor_after_stop_t := n % 2 ^ 32

/-- Modelled from the spec: `PBIO_MOTOR_STOP_COAST` (Coast), the first enumerator of
the after-stop behaviours enumerated by the actuator layer (`pbio/motor.h` is not
among the sources). -/
def PBIO_MOTOR_STOP_COAST : pbio_motor_after_stop_t := 0

/-- An exception of the runtime: the one `pb_assert` raises for an error code, or the
`TypeError` of an argument of the wrong kind or a wrong argument count. -/
inductive mp_exc where
  | pbio (err : pbio_error_t)
  | TypeError
  deriving DecidableEq, Repr

/-- Modelled from the spec: a runtime object as far as this module looks at it: a motor
object (of `motor_Motor_type`, carrying its port), a small integer, a float, or
anything else. -/
inductive mp_obj_t (α : Type) where
  | motor (port : pbio_port_t)
  | small_int (n : Int)
  | float (x : α)
  | other
  deriving DecidableEq, Repr

/-- One call made by the controller to a collaborator, as recorded in the log. -/
inductive Event (α : Type) where
  | thread_enter
  | thread_exit
  | get_angle (port : pbio_port_t)
  | run (port : pbio_port_t) (speed : α)
  | stop (port : pbio_port_t) (after_stop : pbio_motor_after_stop_t)
  | delay_ms (ms : Nat)
  deriving DecidableEq, Repr

/-- The actuator layer and the delay primitive, acting on a state `σ`. -/
structure Actuators (σ α : Type) where
  get_angle : pbio_port_t → σ → pbio_error_t × Int × σ
  run : pbio_port_t → α → σ → pbio_error_t × σ
  stop : pbio_port_t → pbio_motor_after_stop_t → σ → pbio_error_t × σ
  delay_ms : Nat → σ → σ

/-- The state of the collaborators and the log of the calls made so far. -/
structure World (σ α : Type) where
  hw : σ
  log : List (Event α)

/-- Class structure for DriveBase (`robotics_DriveBase_obj_t`). -/
structure robotics_DriveBase_obj_t (α : Type) where
  port_left : pbio_port_t
  port_right : pbio_port_t
  wheel_diameter : α
  axle_track : α
  deriving DecidableEq, Repr

/-! ## Execution: world passing with exceptions -/

/-- A computation on the world that returns a value or raises, keeping the world
reached in both cases. -/
def Exec (σ α β : Type) : Type := World σ α → Except mp_exc β × World σ α

/-- Sequencing: a raised exception skips the rest. -/
def Exec.bind {σ α β γ : Type} (m : Exec σ α β) (f : β → Exec σ α γ) : Exec σ α γ :=
  fun w =>
    match m w with
    | (Except.ok x, w1) => f x w1
    | (Except.error e, w1) => (Except.error e, w1)

instance {σ α : Type} : Monad (Exec σ α) where
  pure x := fun w => (Except.ok x, w)
  bind := Exec.bind

/-- A pure step that may raise. -/
def Exec.lift {σ α β : Type} (r : Except mp_exc β) : Exec σ α β :=
  fun w => (r, w)

/-- Modelled from the spec: `pb_assert` (`pberror.h` is not among the sources) returns
on `PBIO_SUCCESS` and otherwise raises the failure for the given error code, which is
surfaced to the caller as it is. -/
def pb_assert (err : pbio_error_t) : Except mp_exc Unit :=
  if err = pbio_error_t.PBIO_SUCCESS then Except.ok () else Except.error (mp_exc.pbio err)

/-- Modelled from the spec: `mp_obj_get_num` (`pbobj.h` is not among the sources) gives
the number held by a numeric object and raises a `TypeError` for any other object. -/
def mp_obj_get_num {α : Type} [IntCast α] : mp_obj_t α → Except mp_exc α
  | mp_obj_t.small_int n => Except.ok (n : α)
  | mp_obj_t.float x => Except.ok x
  | _ => Except.error mp_exc.TypeError

/-- Modelled from the spec: `mp_obj_get_int` (`py/obj.h` is not among the sources)
gives the value of an integer object and raises a `TypeError` otherwise. -/
def mp_obj_get_int {α : Type} : mp_obj_t α → Except mp_exc Int
  | mp_obj_t.small_int n => Except.ok n
  | _ => Except.error mp_exc.TypeError

/-- The test `MP_OBJ_IS_TYPE(o, &motor_Motor_type)`. -/
def MP_OBJ_IS_TYPE_motor {α : Type} : mp_obj_t α → Bool
  | mp_obj_t.motor _ => true
  | _ => false

/-- Modelled from the spec: `get_port` (`modmotor.h` is not among the sources) resolves
a motor object to its port.  It is only called on motor objects. -/
def get_port {α : Type} : mp_obj_t α → pbio_port_t
  | mp_obj_t.motor port => port
  | _ => 0

/-- The small-integer object built by `MP_OBJ_NEW_SMALL_INT`. -/
def MP_OBJ_NEW_SMALL_INT {α : Type} (n : Int) : mp_obj_t α := mp_obj_t.small_int n

/-- Modelled from the spec: `mp_arg_check_num(n_args, n_kw, n_args_min, n_args_max,
takes_kw)` (`py/runtime.h` is not among the sources) raises a `TypeError` unless the
number of positional arguments is within the bounds and keywords are given only if
taken. -/
def mp_arg_check_num (n_args n_kw n_args_min n_args_max : Nat) (takes_kw : Bool) :
    Except mp_exc Unit :=
  if (!takes_kw && decide (0 < n_kw)) || decide (n_args < n_args_min)
      || decide (n_args_max < n_args) then
    Except.error mp_exc.TypeError
  else Except.ok ()

/-- Append an event to the log. -/
def World.record {σ α : Type} (w : World σ α) (ev : Event α) : World σ α :=
  ⟨w.hw, w.log ++ [ev]⟩

/-- Entering the critical section (`pb_thread_enter`). -/
def pb_thread_enter {σ α : Type} : Exec σ α Unit :=
  fun w => (Except.ok (), w.record Event.thread_enter)

/-- Leaving the critical section (`pb_thread_exit`). -/
def pb_thread_exit {σ α : Type} : Exec σ α Unit :=
  fun w => (Except.ok (), w.record Event.thread_exit)

/-- The call `pbio_motor_get_angle(port, &angle)`: the error code and the angle. -/
def pbio_motor_get_angle {σ α : Type} (hw : Actuators σ α) (port : pbio_port_t) :
    Exec σ α (pbio_error_t × Int) :=
  fun w =>
    let r := hw.get_angle port w.hw
    (Except.ok (r.1, r.2.1), World.record ⟨r.2.2, w.log⟩ (Event.get_angle port))

/-- The call `pbio_motor_run(port, speed)`: the error code it returns. -/
def pbio_motor_run {σ α : Type} (hw : Actuators σ α) (port : pbio_port_t) (speed : α) :
    Exec σ α pbio_error_t :=
  fun w =>
    let r := hw.run port speed w.hw
    (Except.ok r.1, World.record ⟨r.2, w.log⟩ (Event.run port speed))

/-- The call `pbio_motor_stop(port, after_stop)`: the error code it returns. -/
def pbio_motor_stop {σ α : Type} (hw : Actuators σ α) (port : pbio_port_t)
    (after_stop : pbio_motor_after_stop_t) : Exec σ α pbio_error_t :=
  fun w =>
    let r := hw.stop port after_stop w.hw
    (Except.ok r.1, World.record ⟨r.2, w.log⟩ (Event.stop port after_stop))

/-- The call `mp_hal_delay_ms(ms)`; its parameter is the unsigned integer
`mp_uint_t`. -/
def mp_hal_delay_ms {σ α : Type} (hw : Actuators σ α) (ms : Nat) : Exec σ α Unit :=
  fun w => (Except.ok (), World.record ⟨hw.delay_ms ms w.hw, w.log⟩ (Event.delay_ms ms))

/-! ## The DriveBase class -/

section DriveBase

variable {σ α : Type} [IntCast α] [Add α] [Sub α] [Mul α] [Div α] [LT α]
  [DecidableRel (fun a b : α => a < b)] [OfNat α 1] [OfNat α 2] [OfNat α 720]

/-- The constructor `robotics_DriveBase_make_new`, called with `n_kw` keyword arguments
and the positional arguments `args`.  The two dimensions are assigned to fields of type
`float_t`; `to_float_t` is the conversion of that assignment (the rounding to the
precision of `float_t`, the identity when the number has that precision already). -/
def robotics_DriveBase_make_new (to_float_t : α → α) (hw : Actuators σ α) (n_kw : Nat)
    (args : List (mp_obj_t α)) : Exec σ α (robotics_DriveBase_obj_t α) := do
  -- We should have four arguments
  Exec.lift (mp_arg_check_num args.length n_kw 4 4 false)
  match args with
  | [arg0, arg1, arg2, arg3] =>
    -- Argument must be two motors and two dimensions
    if !MP_OBJ_IS_TYPE_motor arg0 || !MP_OBJ_IS_TYPE_motor arg1 then
      Exec.lift (pb_assert pbio_error_t.PBIO_ERROR_INVALID_ARG)
    let port_left := get_port arg0
    let port_right := get_port arg1
    -- Argument must be two unique motors
    if port_left = port_right then
      Exec.lift (pb_assert pbio_error_t.PBIO_ERROR_INVALID_ARG)
    -- Motors should still be connected and should have encoders, which we can test
    -- by reading their angles
    if port_left = port_right then
      let r_left ← pbio_motor_get_angle hw port_left
      Exec.lift (pb_assert r_left.1)
      let r_right ← pbio_motor_get_angle hw port_right
      Exec.lift (pb_assert r_right.1)
    -- Get wheel diameter and axle track dimensions
    let wheel_diameter ← Exec.lift ((mp_obj_get_num arg2).map to_float_t)
    let axle_track ← Exec.lift ((mp_obj_get_num arg3).map to_float_t)
    -- Assert that the dimensions are positive
    if wheel_diameter < 1 ∨ axle_track < 1 then
      Exec.lift (pb_assert pbio_error_t.PBIO_ERROR_INVALID_ARG)
    return ⟨port_left, port_right, wheel_diameter, axle_track⟩
  | _ => Exec.lift (Except.error mp_exc.TypeError)

/-- The method `robotics_DriveBase_drive(self_in, speed, steering)`.  The operations are
those of the carrier `α`, and `M_PI` is its value of π.  `sum` and `dif` are `float`
variables: in a carrier whose operations round to that precision, as `Binary32`, their
values have it already. -/
def robotics_DriveBase_drive (M_PI : α) (hw : Actuators σ α)
    (self : robotics_DriveBase_obj_t α) (speed steering : mp_obj_t α) : Exec σ α Unit := do
  let speed_num ← Exec.lift (mp_obj_get_num speed)
  let sum := speed_num / self.wheel_diameter * (720 / M_PI)
  let steering_num ← Exec.lift (mp_obj_get_num steering)
  let dif := 2 * self.axle_track / self.wheel_diameter * steering_num
  pb_thread_enter
  let err_left ← pbio_motor_run hw self.port_left ((sum + dif) / 2)
  let err_right ← pbio_motor_run hw self.port_right ((sum - dif) / 2)
  pb_thread_exit
  Exec.lift (pb_assert err_left)
  Exec.lift (pb_assert err_right)
  return ()

/-- The method `robotics_DriveBase_stop(n_args, args)`; `self` is `args[0]` and `rest`
holds `args[1]` onwards, so that `n_args` is `1 + rest.length`. -/
def robotics_DriveBase_stop (hw : Actuators σ α) (self : robotics_DriveBase_obj_t α)
    (rest : List (mp_obj_t α)) : Exec σ α Unit := do
  -- Parse arguments and/or set default optional arguments
  let after_stop ← Exec.lift (match rest with
    | arg1 :: _ => (mp_obj_get_int arg1).map to_after_stop
    | [] => Except.ok PBIO_MOTOR_STOP_COAST)
  pb_thread_enter
  let err_left ← pbio_motor_stop hw self.port_left after_stop
  let err_right ← pbio_motor_stop hw self.port_right after_stop
  pb_thread_exit
  Exec.lift (pb_assert err_left)
  Exec.lift (pb_assert err_right)
  return ()

/-- The method `robotics_DriveBase_drive_time(n_args, args)`; `self` is `args[0]` and
`rest` holds `args[1]` onwards.  The function object is declared with between 4 and 5
arguments, so `rest` has at least three entries when the body runs; a shorter list is
the `TypeError` of the runtime.  The duration is passed to the `mp_uint_t` parameter of
`mp_hal_delay_ms`; `to_mp_uint` is the conversion of the number to that unsigned
integer type. -/
def robotics_DriveBase_drive_time (M_PI : α) (to_mp_uint : α → Nat) (hw : Actuators σ α)
    (self : robotics_DriveBase_obj_t α) (rest : List (mp_obj_t α)) : Exec σ α Unit :=
  match rest with
  | arg1 :: arg2 :: arg3 :: _ => do
    robotics_DriveBase_drive M_PI hw self arg1 arg2
    let ms ← Exec.lift (mp_obj_get_num arg3)
    mp_hal_delay_ms hw (to_mp_uint ms)
    -- TODO: parse stop type
    robotics_DriveBase_drive M_PI hw self (MP_OBJ_NEW_SMALL_INT 0) (MP_OBJ_NEW_SMALL_INT 0)
    return ()
  | _ => Exec.lift (Except.error mp_exc.TypeError)

end DriveBase

/-! ## A test double of the collaborators -/

/-- An instrumented fake of the collaborators: the state is the list of commands
received, and each actuator call answers with the code `answer port`. -/
def fake_actuators {α : Type} (answer : pbio_port_t → pbio_error_t) :
    Actuators (List (Event α)) α where
  get_angle := fun port s => (answer port, 0, s ++ [Event.get_angle port])
  run := fun port speed s => (answer port, s ++ [Event.run port speed])
  stop := fun port after_stop s => (answer port, s ++ [Event.stop port after_stop])
  delay_ms := fun ms s => s ++ [Event.delay_ms ms]

/-- A fake in which every actuator is connected and every call succeeds. -/
def all_connected : pbio_port_t → pbio_error_t := fun _ => pbio_error_t.PBIO_SUCCESS

/-- A fake in which the motor on port 65 (port A) is not connected. -/
def port_A_unplugged : pbio_port_t → pbio_error_t := fun port =>
  if port = 65 then pbio_error_t.PBIO_ERROR_NO_DEV else pbio_error_t.PBIO_SUCCESS

/-- The empty world of the fake collaborators. -/
def World.empty {α : Type} : World (List (Event α)) α := ⟨[], []⟩

/-! ## The critical section, read off the log -/

/-- Whether an event is a call to an actuator (a query or a command). -/
def Event.is_actuator_call {α : Type} : Event α → Bool
  | Event.get_angle _ => true
  | Event.run _ _ => true
  | Event.stop _ _ => true
  | _ => false

/-- A monitor of the critical section: it reads a log from the state `held` (whether the
section is held) and gives the state reached, or `none` as soon as the discipline is
broken: the section is entered while held, left while not held, or an actuator is called
while it is not held. -/
def critical_section {α : Type} : Bool → List (Event α) → Option Bool
  | held, [] => some held
  | held, Event.thread_enter :: log => if held then none else critical_section true log
  | held, Event.thread_exit :: log => if held then critical_section false log else none
  | held, Event.get_angle _ :: log => if held then critical_section held log else none
  | held, Event.run _ _ :: log => if held then critical_section held log else none
  | held, Event.stop _ _ :: log => if held then critical_section held log else none
  | held, Event.delay_ms _ :: log => critical_section held log

/-! ## The methods on the object behind `self_in` -/

/-- A method call on a DriveBase object, with its arguments after `self`. -/
inductive Call (α : Type) where
  | drive (speed steering : mp_obj_t α)
  | stop (rest : List (mp_obj_t α))
  | drive_time (rest : List (mp_obj_t α))

/-- The object `self_in` points to, next to the world of the collaborators. -/
structure Machine (σ α : Type) where
  self : robotics_DriveBase_obj_t α
  world : World σ α

/-- A computation on the object and the world that returns a value or raises. -/
def MethodExec (σ α β : Type) : Type := Machine σ α → Except mp_exc β × Machine σ α

/-- Sequencing: a raised exception skips the rest. -/
def MethodExec.bind {σ α β γ : Type} (x : MethodExec σ α β) (f : β → MethodExec σ α γ) :
    MethodExec σ α γ :=
  fun m =>
    match x m with
    | (Except.ok v, m1) => f v m1
    | (Except.error e, m1) => (Except.error e, m1)

instance {σ α : Type} : Monad (MethodExec σ α) where
  pure x := fun m => (Except.ok x, m)
  bind := MethodExec.bind

/-- A read through the pointer: `self->field`. -/
def self_get {σ α β : Type} (field : robotics_DriveBase_obj_t α → β) : MethodExec σ α β :=
  fun m => (Except.ok (field m.self), m)

/-- A write through the pointer: an assignment to a field of `self`. -/
def self_set {σ α : Type}
    (assign : robotics_DriveBase_obj_t α → robotics_DriveBase_obj_t α) :
    MethodExec σ α Unit :=
  fun m => (Except.ok (), ⟨assign m.self, m.world⟩)

/-- A step on the collaborators: they are handed values, never the pointer. -/
def MethodExec.of_world {σ α β : Type} (step : Exec σ α β) : MethodExec σ α β :=
  fun m => ((step m.world).1, ⟨m.self, (step m.world).2⟩)

/-- A computation on the machine leaves the object as it found it, whatever it returns
or raises. -/
def MethodExec.leaves_self {σ α β : Type} (x : MethodExec σ α β) : Prop :=
  ∀ m : Machine σ α, (x m).2.self = m.self

section Calls

variable {σ α : Type} [IntCast α] [Add α] [Sub α] [Mul α] [Div α] [LT α]
  [DecidableRel (fun a b : α => a < b)] [OfNat α 1] [OfNat α 2] [OfNat α 720]

/-- The body of `robotics_DriveBase_drive` (lines 69-85) on the object behind `self_in`:
every `self->field` is a read through the pointer. -/
def Machine.drive (M_PI : α) (hw : Actuators σ α) (speed steering : mp_obj_t α) :
    MethodExec σ α Unit := do
  let speed_num ← MethodExec.of_world (Exec.lift (mp_obj_get_num speed))
  let wheel_diameter ← self_get fun self => self.wheel_diameter
  let sum := speed_num / wheel_diameter * (720 / M_PI)
  let axle_track ← self_get fun self => self.axle_track
  let wheel_diameter_again ← self_get fun self => self.wheel_diameter
  let steering_num ← MethodExec.of_world (Exec.lift (mp_obj_get_num steering))
  let dif := 2 * axle_track / wheel_diameter_again * steering_num
  MethodExec.of_world pb_thread_enter
  let port_left ← self_get fun self => self.port_left
  let err_left ← MethodExec.of_world (pbio_motor_run hw port_left ((sum + dif) / 2))
  let port_right ← self_get fun self => self.port_right
  let err_right ← MethodExec.of_world (pbio_motor_run hw port_right ((sum - dif) / 2))
  MethodExec.of_world pb_thread_exit
  MethodExec.of_world (Exec.lift (pb_assert err_left))
  MethodExec.of_world (Exec.lift (pb_assert err_right))
  return ()

/-- The body of `robotics_DriveBase_stop` (lines 88-105) on the object behind
`args[0]`. -/
def Machine.stop (hw : Actuators σ α) (rest : List (mp_obj_t α)) : MethodExec σ α Unit := do
  let after_stop ← MethodExec.of_world (Exec.lift (match rest with
    | arg1 :: _ => (mp_obj_get_int arg1).map to_after_stop
    | [] => Except.ok PBIO_MOTOR_STOP_COAST))
  MethodExec.of_world pb_thread_enter
  let port_left ← self_get fun self => self.port_left
  let err_left ← MethodExec.of_world (pbio_motor_stop hw port_left after_stop)
  let port_right ← self_get fun self => self.port_right
  let err_right ← MethodExec.of_world (pbio_motor_stop hw port_right after_stop)
  MethodExec.of_world pb_thread_exit
  MethodExec.of_world (Exec.lift (pb_assert err_left))
  MethodExec.of_world (Exec.lift (pb_assert err_right))
  return ()

/-- The body of `robotics_DriveBase_drive_time` (lines 108-115) on the object behind
`args[0]`; the two calls of `drive` are handed the same pointer. -/
def Machine.drive_time (M_PI : α) (to_mp_uint : α → Nat) (hw : Actuators σ α)
    (rest : List (mp_obj_t α)) : MethodExec σ α Unit :=
  match rest with
  | arg1 :: arg2 :: arg3 :: _ => do
    Machine.drive M_PI hw arg1 arg2
    let ms ← MethodExec.of_world (Exec.lift (mp_obj_get_num arg3))
    MethodExec.of_world (mp_hal_delay_ms hw (to_mp_uint ms))
    -- TODO: parse stop type
    Machine.drive M_PI hw (MP_OBJ_NEW_SMALL_INT 0) (MP_OBJ_NEW_SMALL_INT 0)
    return ()
  | _ => MethodExec.of_world (Exec.lift (Except.error mp_exc.TypeError))

/-- One method call on the machine. -/
def Machine.call (M_PI : α) (to_mp_uint : α → Nat) (hw : Actuators σ α) (m : Machine σ α) :
    Call α → Except mp_exc Unit × Machine σ α
  | Call.drive speed steering => Machine.drive M_PI hw speed steering m
  | Call.stop rest => Machine.stop hw rest m
  | Call.drive_time rest => Machine.drive_time M_PI to_mp_uint hw rest m

/-- A caller that makes the calls one after the other and goes on after a failed one. -/
def Machine.run_calls (M_PI : α) (to_mp_uint : α → Nat) (hw : Actuators σ α) :
    Machine σ α → List (Call α) → Machine σ α
  | m, [] => m
  | m, c :: cs =>
    Machine.run_calls M_PI to_mp_uint hw (Machine.call M_PI to_mp_uint hw m c).2 cs

end Calls

/-! ## Assumptions on the stop of the actuator layer -/

/-- The stop of the actuator layer is idempotent: a second stop with the same after-stop
value on the same port returns the same result and leaves the state unchanged. -/
def stop_idempotent {σ α : Type} (hw : Actuators σ α) : Prop :=
  ∀ (port : pbio_port_t) (after_stop : pbio_motor_after_stop_t) (s : σ),
    hw.stop port after_stop (hw.stop port after_stop s).2 = hw.stop port after_stop s

/-- The stop of the actuator layer stays a repetition across a stop on another port: a
stop on `port`, after a stop on `port` and then one on `other` with the same after-stop
value, returns what the first stop on `port` returned and leaves the state unchanged. -/
def stop_idempotent_across {σ α : Type} (hw : Actuators σ α) : Prop :=
  ∀ (port other : pbio_port_t) (after_stop : pbio_motor_after_stop_t) (s : σ),
    hw.stop port after_stop (hw.stop other after_stop (hw.stop port after_stop s).2).2 =
      ((hw.stop port after_stop s).1, (hw.stop other after_stop (hw.stop port after_stop s).2).2)

/-- An actuator layer with one latch per port: the state gives for each port the
after-stop value it was stopped with last, or `none` while it runs. -/
def latching_actuators {α : Type} (answer : pbio_port_t → pbio_error_t) :
    Actuators (pbio_port_t → Option pbio_motor_after_stop_t) α where
  get_angle := fun port s => (answer port, 0, s)
  run := fun port _ s => (answer port, Function.update s port none)
  stop := fun port after_stop s => (answer port, Function.update s port (some after_stop))
  delay_ms := fun _ s => s

/-! ## The conversions of C, on rationals -/

/-- Rounding to the nearest integer, ties to the even one. -/
def round_half_even (x : ℚ) : Int :=
  if x - ⌊x⌋ < 1 / 2 then ⌊x⌋
  else if 1 / 2 < x - ⌊x⌋ then ⌊x⌋ + 1
  else if ⌊x⌋ % 2 = 0 then ⌊x⌋ else ⌊x⌋ + 1

/-- The conversion of a number to IEEE 754 binary32, the format of `float`: the nearest
number with 24 significant bits, ties to the even one.  It is the conversion for the
normal range `2 ^ (-126) ≤ |x| < 2 ^ 128`; subnormal numbers, infinities and NaN are not
represented. -/
def binary32_round (x : ℚ) : ℚ :=
  if x = 0 then 0
  else round_half_even (x / 2 ^ (Int.log 2 |x| - 23)) * 2 ^ (Int.log 2 |x| - 23)

/-- A binary32 number, given by its value.  Every operation is the exact one followed by
the conversion to binary32; what lies outside the normal range (overflow, a division by
zero, NaN) is not represented. -/
structure Binary32 where
  val : ℚ
  deriving DecidableEq, Repr

instance : Add Binary32 := ⟨fun a b => ⟨binary32_round (a.val + b.val)⟩⟩

instance : Sub Binary32 := ⟨fun a b => ⟨binary32_round (a.val - b.val)⟩⟩

instance : Mul Binary32 := ⟨fun a b => ⟨binary32_round (a.val * b.val)⟩⟩

instance : Div Binary32 := ⟨fun a b => ⟨binary32_round (a.val / b.val)⟩⟩

instance : LT Binary32 := ⟨fun a b => a.val < b.val⟩

instance : DecidableRel (fun a b : Binary32 => a < b) :=
  fun a b => inferInstanceAs (Decidable (a.val < b.val))

instance : IntCast Binary32 := ⟨fun n => ⟨binary32_round n⟩⟩

instance (n : Nat) : OfNat Binary32 n := ⟨⟨binary32_round n⟩⟩

/-- The binary32 number nearest to π, the value of `M_PI` as a `float`. -/
def Binary32.pi : Binary32 := ⟨13176795 / 4194304⟩

/-! ## Unfolding lemmas -/


section Lemmas

variable {σ α : Type}

theorem Exec.bind_apply {β γ : Type} (m : Exec σ α β) (f : β → Exec σ α γ)
    (w : World σ α) :
    (m >>= f) w = match m w with
      | (Except.ok x, w1) => f x w1
      | (Except.error e, w1) => (Except.error e, w1) := rfl

theorem Exec.pure_apply {β : Type} (x : β) (w : World σ α) :
    (pure x : Exec σ α β) w = (Except.ok x, w) := rfl

theorem Exec.lift_apply {β : Type} (r : Except mp_exc β) (w : World σ α) :
    (Exec.lift r : Exec σ α β) w = (r, w) := rfl

theorem pb_assert_success : pb_assert pbio_error_t.PBIO_SUCCESS = Except.ok () := rfl

theorem pb_assert_error {err : pbio_error_t} (h : err ≠ pbio_error_t.PBIO_SUCCESS) :
    pb_assert err = Except.error (mp_exc.pbio err) := by
  simp [pb_assert, h]

/-- The two closing `pb_assert` calls of `drive` and `stop`: the left code is looked at
first. -/
theorem pb_assert_both (err_left err_right : pbio_error_t) :
    ((pb_assert err_left).bind fun _ => pb_assert err_right) =
      if err_left ≠ pbio_error_t.PBIO_SUCCESS then Except.error (mp_exc.pbio err_left)
      else if err_right ≠ pbio_error_t.PBIO_SUCCESS then
        Except.error (mp_exc.pbio err_right)
      else Except.ok () := by
  unfold pb_assert
  split_ifs <;> simp_all [Except.bind]

/-- What `stop` does once the after-stop value is known. -/
theorem stop_run (hw : Actuators σ α) (self : robotics_DriveBase_obj_t α)
    (rest : List (mp_obj_t α)) (after_stop : pbio_motor_after_stop_t)
    (h : (match rest with
        | arg1 :: _ => (mp_obj_get_int arg1).map to_after_stop
        | [] => Except.ok PBIO_MOTOR_STOP_COAST) = Except.ok after_stop)
    (w : World σ α) :
    robotics_DriveBase_stop hw self rest w =
      ((pb_assert (hw.stop self.port_left after_stop w.hw).1).bind fun _ =>
        pb_assert (hw.stop self.port_right after_stop
          (hw.stop self.port_left after_stop w.hw).2).1,
       ⟨(hw.stop self.port_right after_stop
          (hw.stop self.port_left after_stop w.hw).2).2,
        w.log ++ [Event.thread_enter, Event.stop self.port_left after_stop,
          Event.stop self.port_right after_stop, Event.thread_exit]⟩) := by
  simp only [robotics_DriveBase_stop, Exec.bind_apply, h, Exec.lift_apply,
    pb_thread_enter, pb_thread_exit, pbio_motor_stop, World.record, Exec.pure_apply,
    List.append_assoc, List.singleton_append, List.cons_append, List.nil_append]
  unfold pb_assert
  split_ifs <;> simp [Except.bind]

end Lemmas

section DriveLemmas

variable {σ α : Type} [IntCast α] [Add α] [Sub α] [Mul α] [Div α] [OfNat α 2] [OfNat α 720]

/-- What `drive` does on numeric arguments: the world it reaches and its result. -/
theorem drive_run (M_PI : α) (hw : Actuators σ α) (self : robotics_DriveBase_obj_t α)
    (speed steering : mp_obj_t α) (s t : α)
    (hs : mp_obj_get_num speed = Except.ok s) (ht : mp_obj_get_num steering = Except.ok t)
    (w : World σ α) :
    robotics_DriveBase_drive M_PI hw self speed steering w =
      ((pb_assert (hw.run self.port_left
            ((s / self.wheel_diameter * (720 / M_PI)
              + 2 * self.axle_track / self.wheel_diameter * t) / 2) w.hw).1).bind fun _ =>
        pb_assert (hw.run self.port_right
            ((s / self.wheel_diameter * (720 / M_PI)
              - 2 * self.axle_track / self.wheel_diameter * t) / 2)
            (hw.run self.port_left
              ((s / self.wheel_diameter * (720 / M_PI)
                + 2 * self.axle_track / self.wheel_diameter * t) / 2) w.hw).2).1,
       ⟨(hw.run self.port_right
            ((s / self.wheel_diameter * (720 / M_PI)
              - 2 * self.axle_track / self.wheel_diameter * t) / 2)
            (hw.run self.port_left
              ((s / self.wheel_diameter * (720 / M_PI)
                + 2 * self.axle_track / self.wheel_diameter * t) / 2) w.hw).2).2,
        w.log ++ [Event.thread_enter,
          Event.run self.port_left ((s / self.wheel_diameter * (720 / M_PI)
              + 2 * self.axle_track / self.wheel_diameter * t) / 2),
          Event.run self.port_right ((s / self.wheel_diameter * (720 / M_PI)
              - 2 * self.axle_track / self.wheel_diameter * t) / 2),
          Event.thread_exit]⟩) := by
  simp only [robotics_DriveBase_drive, Exec.bind_apply, Exec.lift_apply, hs, ht,
    pb_thread_enter, pb_thread_exit, pbio_motor_run, World.record, Exec.pure_apply,
    List.append_assoc, List.singleton_append, List.cons_append, List.nil_append]
  unfold pb_assert
  split_ifs <;> simp [Except.bind]

end DriveLemmas

section ConstructionLemmas

variable {σ α : Type} [IntCast α] [LT α] [DecidableRel (fun a b : α => a < b)] [OfNat α 1]

/-- What the constructor does on two motor objects and two numbers: no actuator is ever
queried, and only the comparison of the ports and of the stored dimensions decides. -/
theorem make_new_run (to_float_t : α → α) (hw : Actuators σ α)
    (port_left port_right : pbio_port_t)
    (arg2 arg3 : mp_obj_t α) (wheel_diameter axle_track : α)
    (h2 : mp_obj_get_num arg2 = Except.ok wheel_diameter)
    (h3 : mp_obj_get_num arg3 = Except.ok axle_track) (w : World σ α) :
    robotics_DriveBase_make_new to_float_t hw 0
        [mp_obj_t.motor port_left, mp_obj_t.motor port_right, arg2, arg3] w =
      (if port_left = port_right ∨ to_float_t wheel_diameter < 1
            ∨ to_float_t axle_track < 1 then
          Except.error (mp_exc.pbio pbio_error_t.PBIO_ERROR_INVALID_ARG)
        else Except.ok
          ⟨port_left, port_right, to_float_t wheel_diameter, to_float_t axle_track⟩, w) := by
  by_cases hp : port_left = port_right
  · simp [robotics_DriveBase_make_new, Exec.bind_apply, Exec.lift_apply,
      mp_arg_check_num, MP_OBJ_IS_TYPE_motor, get_port, hp, pb_assert]
  · by_cases hd : to_float_t wheel_diameter < 1 ∨ to_float_t axle_track < 1
    · simp [robotics_DriveBase_make_new, Exec.bind_apply, Exec.lift_apply,
        mp_arg_check_num, MP_OBJ_IS_TYPE_motor, get_port, hp, hd, pb_assert, h2, h3,
        Exec.pure_apply, Except.map]
    · simp [robotics_DriveBase_make_new, Exec.bind_apply, Exec.lift_apply,
        mp_arg_check_num, MP_OBJ_IS_TYPE_motor, get_port, hp, hd, pb_assert, h2, h3,
        Exec.pure_apply, Except.map]

end ConstructionLemmas

/-! ## Lemmas on the stop of the latching actuator layer -/

section StopLemmas

variable {α : Type}

theorem latching_stop_idempotent (answer : pbio_port_t → pbio_error_t) :
    stop_idempotent
      (latching_actuators answer : Actuators (pbio_port_t → Option pbio_motor_after_stop_t) α) := by
  intro port after_stop s
  simp [latching_actuators]

theorem latching_stop_idempotent_across (answer : pbio_port_t → pbio_error_t) :
    stop_idempotent_across
      (latching_actuators answer : Actuators (pbio_port_t → Option pbio_motor_after_stop_t) α) := by
  intro port other after_stop s
  simp only [latching_actuators, Prod.mk.injEq, true_and]
  funext x
  by_cases hx : x = port
  · by_cases ho : x = other
    · simp [Function.update, hx, ho]
    · subst hx
      simp [Function.update, ho]
  · simp [Function.update, hx]

/-- A stop whose after-stop argument is not an integer raises before anything is done. -/
theorem stop_type_error {σ : Type} (hw : Actuators σ α) (self : robotics_DriveBase_obj_t α)
    (arg1 : mp_obj_t α) (rest : List (mp_obj_t α))
    (h : mp_obj_get_int arg1 = Except.error mp_exc.TypeError) (w : World σ α) :
    robotics_DriveBase_stop hw self (arg1 :: rest) w = (Except.error mp_exc.TypeError, w) := by
  simp only [robotics_DriveBase_stop, Exec.bind_apply, Exec.lift_apply, h, Except.map]

end StopLemmas

/-! ## Evaluating the conversions -/

section FloatLemmas

theorem round_half_even_of_floor (x : ℚ) (f : Int) (h1 : (f : ℚ) ≤ x) (h2 : x < f + 1) :
    round_half_even x =
      if x - f < 1 / 2 then f
      else if 1 / 2 < x - f then f + 1
      else if f % 2 = 0 then f else f + 1 := by
  have hf : ⌊x⌋ = f := Int.floor_eq_iff.mpr ⟨h1, h2⟩
  simp only [round_half_even, hf]

theorem binary32_round_of_exponent (x : ℚ) (e : Int) (h1 : (2 : ℚ) ^ e ≤ |x|)
    (h2 : |x| < (2 : ℚ) ^ (e + 1)) :
    binary32_round x = round_half_even (x / 2 ^ (e - 23)) * 2 ^ (e - 23) := by
  have hpos : 0 < |x| := lt_of_lt_of_le (zpow_pos (by norm_num) e) h1
  have hx : x ≠ 0 := abs_pos.mp hpos
  have hlog : Int.log 2 |x| = e := by
    have ha : e ≤ Int.log 2 |x| :=
      (Int.zpow_le_iff_le_log (by norm_num) hpos).mp (by exact_mod_cast h1)
    have hb : Int.log 2 |x| < e + 1 :=
      (Int.lt_zpow_iff_log_lt (by norm_num) hpos).mp (by exact_mod_cast h2)
    omega
  simp only [binary32_round, hx, if_false, hlog]

theorem binary32_round_small : binary32_round (99999999 / 100000000) = 1 := by
  rw [binary32_round_of_exponent _ (-1) (by norm_num [abs_of_pos]) (by norm_num [abs_of_pos]),
    round_half_even_of_floor _ 16777215 (by norm_num) (by norm_num)]
  norm_num

theorem binary32_round_56 : binary32_round 56 = 56 := by
  rw [binary32_round_of_exponent _ 5 (by norm_num [abs_of_pos]) (by norm_num [abs_of_pos]),
    round_half_even_of_floor _ 14680064 (by norm_num) (by norm_num)]
  norm_num

theorem binary32_round_114 : binary32_round 114 = 114 := by
  rw [binary32_round_of_exponent _ 6 (by norm_num [abs_of_pos]) (by norm_num [abs_of_pos]),
    round_half_even_of_floor _ 14942208 (by norm_num) (by norm_num)]
  norm_num

theorem binary32_round_56_1 : binary32_round (561 / 10) = 7353139 / 131072 := by
  rw [binary32_round_of_exponent _ 5 (by norm_num [abs_of_pos]) (by norm_num [abs_of_pos]),
    round_half_even_of_floor _ 14706278 (by norm_num) (by norm_num)]
  norm_num

end FloatLemmas

/-! ## The binary32 arithmetic of two calls of `drive` -/

section Binary32Steps

end Binary32Steps

/-! ## The kinematic transform of `drive` -/

section Drive

variable {σ α : Type} [LinearOrderedField α]

/-- C1: for every DriveBase and every numeric speed `s` and steering `t`, `drive` enters
the critical section, calls `run` of the actuator layer on the left port with rate
`(sum + diff) / 2` and then, on the state that call left, `run` on the right port with
rate `(sum - diff) / 2`, where `sum = s / wheel_diameter * (720 / π)` and
`diff = 2 * axle_track / wheel_diameter * t`, and leaves the critical section; nothing
else is issued, and the result is decided by the two codes returned.  The expressions are
read exactly, in any ordered field and for any value of `M_PI`, in particular in `ℝ`
with `π`. -/
theorem drive_issues_left_then_right (M_PI : α) (hw : Actuators σ α)
    (self : robotics_DriveBase_obj_t α) (speed steering : mp_obj_t α) (s t : α)
    (hs : mp_obj_get_num speed = Except.ok s) (ht : mp_obj_get_num steering = Except.ok t)
    (w : World σ α) :
    robotics_DriveBase_drive M_PI hw self speed steering w =
      ((if (hw.run self.port_left
              ((s / self.wheel_diameter * (720 / M_PI)
                + 2 * self.axle_track / self.wheel_diameter * t) / 2) w.hw).1
            ≠ pbio_error_t.PBIO_SUCCESS then
          Except.error (mp_exc.pbio (hw.run self.port_left
              ((s / self.wheel_diameter * (720 / M_PI)
                + 2 * self.axle_track / self.wheel_diameter * t) / 2) w.hw).1)
        else if (hw.run self.port_right
              ((s / self.wheel_diameter * (720 / M_PI)
                - 2 * self.axle_track / self.wheel_diameter * t) / 2)
              (hw.run self.port_left
                ((s / self.wheel_diameter * (720 / M_PI)
                  + 2 * self.axle_track / self.wheel_diameter * t) / 2) w.hw).2).1
            ≠ pbio_error_t.PBIO_SUCCESS then
          Except.error (mp_exc.pbio (hw.run self.port_right
              ((s / self.wheel_diameter * (720 / M_PI)
                - 2 * self.axle_track / self.wheel_diameter * t) / 2)
              (hw.run self.port_left
                ((s / self.wheel_diameter * (720 / M_PI)
                  + 2 * self.axle_track / self.wheel_diameter * t) / 2) w.hw).2).1)
        else Except.ok ()),
       ⟨(hw.run self.port_right
            ((s / self.wheel_diameter * (720 / M_PI)
              - 2 * self.axle_track / self.wheel_diameter * t) / 2)
            (hw.run self.port_left
              ((s / self.wheel_diameter * (720 / M_PI)
                + 2 * self.axle_track / self.wheel_diameter * t) / 2) w.hw).2).2,
        w.log ++ [Event.thread_enter,
          Event.run self.port_left
            ((s / self.wheel_diameter * (720 / M_PI)
              + 2 * self.axle_track / self.wheel_diameter * t) / 2),
          Event.run self.port_right
            ((s / self.wheel_diameter * (720 / M_PI)
              - 2 * self.axle_track / self.wheel_diameter * t) / 2),
          Event.thread_exit]⟩) := by
  rw [drive_run M_PI hw self speed steering s t hs ht w, pb_assert_both]

/-- C1, at an input: wheel diameter 56, axle track 114, speed 200 and steering 30 over
the reals with `π`, on the fake actuators with every motor connected: the fake layer has
received the two `run` commands with these rates, and the call succeeds. -/
theorem drive_issues_left_then_right_witness :
    mp_obj_get_num (mp_obj_t.float (200 : ℝ)) = Except.ok 200 ∧
    mp_obj_get_num (mp_obj_t.float (30 : ℝ)) = Except.ok 30 ∧
    robotics_DriveBase_drive Real.pi (fake_actuators all_connected) ⟨65, 66, 56, 114⟩
        (mp_obj_t.float 200) (mp_obj_t.float 30) World.empty =
      (Except.ok (),
       ⟨[Event.run 65 ((200 / 56 * (720 / Real.pi) + 2 * 114 / 56 * 30) / 2),
          Event.run 66 ((200 / 56 * (720 / Real.pi) - 2 * 114 / 56 * 30) / 2)],
        [Event.thread_enter,
          Event.run 65 ((200 / 56 * (720 / Real.pi) + 2 * 114 / 56 * 30) / 2),
          Event.run 66 ((200 / 56 * (720 / Real.pi) - 2 * 114 / 56 * 30) / 2),
          Event.thread_exit]⟩) :=
  ⟨rfl, rfl,
    (drive_issues_left_then_right Real.pi (fake_actuators all_connected)
      ⟨65, 66, 56, 114⟩ (mp_obj_t.float 200) (mp_obj_t.float 30) 200 30 rfl rfl
      World.empty).trans rfl⟩

end Drive

/-! ## The transform in binary32 -/

section Binary32Drive

end Binary32Drive

/-! ## Construction -/

section Construction

variable {σ α : Type} [LinearOrderedField α]

/-- C4, the code at a failing input: the motor on port A (65) is not connected, so that
its angle query answers `PBIO_ERROR_NO_DEV`; construction on ports A and B with wheel
diameter 56 and axle track 114 (stored as binary32) still returns a DriveBase, and no
angle query is made (the log and the state of the fake actuators stay empty). -/
theorem make_new_skips_angle_probe :
    ((fake_actuators port_A_unplugged : Actuators (List (Event ℚ)) ℚ).get_angle 65 []).1
      = pbio_error_t.PBIO_ERROR_NO_DEV ∧
    robotics_DriveBase_make_new binary32_round (fake_actuators port_A_unplugged) 0
        [mp_obj_t.motor 65, mp_obj_t.motor 66, mp_obj_t.float (56 : ℚ), mp_obj_t.float 114]
        World.empty =
      (Except.ok ⟨65, 66, 56, 114⟩, ⟨[], []⟩) := by
  refine ⟨rfl, ?_⟩
  rw [make_new_run binary32_round (fake_actuators port_A_unplugged) 65 66
    (mp_obj_t.float (56 : ℚ)) (mp_obj_t.float 114) 56 114 rfl rfl World.empty,
    binary32_round_56, binary32_round_114]
  norm_num [World.empty]

/-- C5: for every two motor objects on the same port and whatever the two dimension
arguments are, construction fails with `PBIO_ERROR_INVALID_ARG`; no DriveBase is returned
and no collaborator is called. -/
theorem make_new_same_port (to_float_t : α → α) (hw : Actuators σ α) (port : pbio_port_t)
    (arg2 arg3 : mp_obj_t α) (w : World σ α) :
    robotics_DriveBase_make_new to_float_t hw 0
        [mp_obj_t.motor port, mp_obj_t.motor port, arg2, arg3] w =
      (Except.error (mp_exc.pbio pbio_error_t.PBIO_ERROR_INVALID_ARG), w) := by
  simp [robotics_DriveBase_make_new, Exec.bind_apply, Exec.lift_apply,
    mp_arg_check_num, MP_OBJ_IS_TYPE_motor, get_port, pb_assert]

/-- C6, amended: for two motor objects on distinct ports and numeric dimensions,
construction fails with `PBIO_ERROR_INVALID_ARG` exactly when `wheel_diameter` or
`axle_track`, as stored in its `float_t` field, is `< 1`, and returns the DriveBase
holding the two ports and the two stored dimensions exactly when both stored values are
at least 1. -/
theorem make_new_dimensions (to_float_t : α → α) (hw : Actuators σ α)
    (port_left port_right : pbio_port_t)
    (hne : port_left ≠ port_right) (arg2 arg3 : mp_obj_t α) (wheel_diameter axle_track : α)
    (h2 : mp_obj_get_num arg2 = Except.ok wheel_diameter)
    (h3 : mp_obj_get_num arg3 = Except.ok axle_track) (w : World σ α) :
    ((robotics_DriveBase_make_new to_float_t hw 0
          [mp_obj_t.motor port_left, mp_obj_t.motor port_right, arg2, arg3] w).1 =
        Except.error (mp_exc.pbio pbio_error_t.PBIO_ERROR_INVALID_ARG)
      ↔ to_float_t wheel_diameter < 1 ∨ to_float_t axle_track < 1) ∧
    ((robotics_DriveBase_make_new to_float_t hw 0
          [mp_obj_t.motor port_left, mp_obj_t.motor port_right, arg2, arg3] w).1 =
        Except.ok ⟨port_left, port_right, to_float_t wheel_diameter, to_float_t axle_track⟩
      ↔ 1 ≤ to_float_t wheel_diameter ∧ 1 ≤ to_float_t axle_track) := by
  rw [make_new_run to_float_t hw port_left port_right arg2 arg3 wheel_diameter axle_track
    h2 h3 w]
  by_cases hd : to_float_t wheel_diameter < 1 ∨ to_float_t axle_track < 1
  · have hd2 : ¬ (1 ≤ to_float_t wheel_diameter ∧ 1 ≤ to_float_t axle_track) := by
      rintro ⟨h1, h1'⟩
      rcases hd with h | h
      · exact absurd h (not_lt.mpr h1)
      · exact absurd h (not_lt.mpr h1')
    simp [hne, hd, hd2]
  · have hd2 : 1 ≤ to_float_t wheel_diameter ∧ 1 ≤ to_float_t axle_track := by
      constructor
      · exact not_lt.mp fun h => hd (Or.inl h)
      · exact not_lt.mp fun h => hd (Or.inr h)
    simp [hne, hd, hd2]

/-- C6, amended, at the input of the examples: ports A and B, wheel diameter 0.5 and axle
track 0.9, stored as binary32. -/
theorem make_new_dimensions_witness :
    (65 : pbio_port_t) ≠ 66 ∧
    mp_obj_get_num (mp_obj_t.float (1 / 2 : ℚ)) = Except.ok (1 / 2) ∧
    mp_obj_get_num (mp_obj_t.float (9 / 10 : ℚ)) = Except.ok (9 / 10) ∧
    ((robotics_DriveBase_make_new binary32_round (fake_actuators all_connected) 0
          [mp_obj_t.motor 65, mp_obj_t.motor 66, mp_obj_t.float (1 / 2 : ℚ),
            mp_obj_t.float (9 / 10)] World.empty).1 =
        Except.error (mp_exc.pbio pbio_error_t.PBIO_ERROR_INVALID_ARG)
      ↔ binary32_round (1 / 2) < 1 ∨ binary32_round (9 / 10) < 1) ∧
    ((robotics_DriveBase_make_new binary32_round (fake_actuators all_connected) 0
          [mp_obj_t.motor 65, mp_obj_t.motor 66, mp_obj_t.float (1 / 2 : ℚ),
            mp_obj_t.float (9 / 10)] World.empty).1 =
        Except.ok ⟨65, 66, binary32_round (1 / 2), binary32_round (9 / 10)⟩
      ↔ 1 ≤ binary32_round (1 / 2) ∧ 1 ≤ binary32_round (9 / 10)) :=
  ⟨by decide, rfl, rfl,
    make_new_dimensions binary32_round (fake_actuators all_connected) 65 66 (by decide)
      (mp_obj_t.float (1 / 2 : ℚ)) (mp_obj_t.float (9 / 10)) (1 / 2) (9 / 10) rfl rfl
      World.empty⟩

/-- C6, as stated, fails: with the dimensions stored as binary32, the wheel diameter
0.99999999, which is `< 1`, is stored as 1 and construction on ports A and B returns a
DriveBase. -/
theorem make_new_accepts_just_below_one :
    (99999999 / 100000000 : ℚ) < 1 ∧
    robotics_DriveBase_make_new binary32_round (fake_actuators all_connected) 0
        [mp_obj_t.motor 65, mp_obj_t.motor 66, mp_obj_t.float (99999999 / 100000000 : ℚ),
          mp_obj_t.float 114] World.empty =
      (Except.ok ⟨65, 66, 1, 114⟩, ⟨[], []⟩) := by
  refine ⟨by norm_num, ?_⟩
  rw [make_new_run binary32_round (fake_actuators all_connected) 65 66
    (mp_obj_t.float (99999999 / 100000000 : ℚ)) (mp_obj_t.float 114) (99999999 / 100000000)
    114 rfl rfl World.empty, binary32_round_small, binary32_round_114]
  norm_num [World.empty]

end Construction

/-! ## Results and command sequences of `drive`, `stop` and `drive_time` -/

section Commands

variable {σ α : Type} [LinearOrderedField α]

/-- C7: for every outcome pair `(err_left, err_right)` of the two `run` calls, `drive`
succeeds if and only if both codes are `PBIO_SUCCESS`; otherwise it raises `err_left` when
the left call failed (also when both failed) and `err_right` when only the right call
failed, the code being the one the actuator layer returned. -/
theorem drive_result (M_PI : α) (hw : Actuators σ α) (self : robotics_DriveBase_obj_t α)
    (speed steering : mp_obj_t α) (s t : α)
    (hs : mp_obj_get_num speed = Except.ok s) (ht : mp_obj_get_num steering = Except.ok t)
    (w : World σ α) (err_left err_right : pbio_error_t)
    (hl : (hw.run self.port_left
        ((s / self.wheel_diameter * (720 / M_PI)
          + 2 * self.axle_track / self.wheel_diameter * t) / 2) w.hw).1 = err_left)
    (hr : (hw.run self.port_right
        ((s / self.wheel_diameter * (720 / M_PI)
          - 2 * self.axle_track / self.wheel_diameter * t) / 2)
        (hw.run self.port_left
          ((s / self.wheel_diameter * (720 / M_PI)
            + 2 * self.axle_track / self.wheel_diameter * t) / 2) w.hw).2).1 = err_right) :
    ((robotics_DriveBase_drive M_PI hw self speed steering w).1 = Except.ok ()
      ↔ err_left = pbio_error_t.PBIO_SUCCESS ∧ err_right = pbio_error_t.PBIO_SUCCESS) ∧
    (robotics_DriveBase_drive M_PI hw self speed steering w).1 =
      (if err_left ≠ pbio_error_t.PBIO_SUCCESS then Except.error (mp_exc.pbio err_left)
        else if err_right ≠ pbio_error_t.PBIO_SUCCESS then
          Except.error (mp_exc.pbio err_right)
        else Except.ok ()) := by
  rw [drive_run M_PI hw self speed steering s t hs ht w]
  simp only [hl, hr, pb_assert_both]
  by_cases h1 : err_left = pbio_error_t.PBIO_SUCCESS <;>
    by_cases h2 : err_right = pbio_error_t.PBIO_SUCCESS <;> simp [h1, h2]

/-- C7, at an input: the left motor (port A) is not connected and the right one answers
with success; `drive(200, 30)` raises the left code `PBIO_ERROR_NO_DEV`. -/
theorem drive_result_witness :
    mp_obj_get_num (mp_obj_t.float (200 : ℝ)) = Except.ok 200 ∧
    mp_obj_get_num (mp_obj_t.float (30 : ℝ)) = Except.ok 30 ∧
    ((fake_actuators port_A_unplugged).run 65
        (((200 : ℝ) / 56 * (720 / Real.pi) + 2 * 114 / 56 * 30) / 2) []).1
      = pbio_error_t.PBIO_ERROR_NO_DEV ∧
    ((fake_actuators port_A_unplugged).run 66
        (((200 : ℝ) / 56 * (720 / Real.pi) - 2 * 114 / 56 * 30) / 2)
        ((fake_actuators port_A_unplugged).run 65
          (((200 : ℝ) / 56 * (720 / Real.pi) + 2 * 114 / 56 * 30) / 2) []).2).1
      = pbio_error_t.PBIO_SUCCESS ∧
    (((robotics_DriveBase_drive Real.pi (fake_actuators port_A_unplugged)
          ⟨65, 66, 56, 114⟩ (mp_obj_t.float 200) (mp_obj_t.float 30) World.empty).1
        = Except.ok ()
      ↔ pbio_error_t.PBIO_ERROR_NO_DEV = pbio_error_t.PBIO_SUCCESS
        ∧ pbio_error_t.PBIO_SUCCESS = pbio_error_t.PBIO_SUCCESS) ∧
    (robotics_DriveBase_drive Real.pi (fake_actuators port_A_unplugged)
          ⟨65, 66, 56, 114⟩ (mp_obj_t.float 200) (mp_obj_t.float 30) World.empty).1 =
      (if pbio_error_t.PBIO_ERROR_NO_DEV ≠ pbio_error_t.PBIO_SUCCESS then
          Except.error (mp_exc.pbio pbio_error_t.PBIO_ERROR_NO_DEV)
        else if pbio_error_t.PBIO_SUCCESS ≠ pbio_error_t.PBIO_SUCCESS then
          Except.error (mp_exc.pbio pbio_error_t.PBIO_SUCCESS)
        else Except.ok ())) :=
  ⟨rfl, rfl, rfl, rfl,
    drive_result Real.pi (fake_actuators port_A_unplugged) ⟨65, 66, 56, 114⟩
      (mp_obj_t.float 200) (mp_obj_t.float 30) 200 30 rfl rfl World.empty
      pbio_error_t.PBIO_ERROR_NO_DEV pbio_error_t.PBIO_SUCCESS rfl rfl⟩

/-- C8: whatever the left `run` call returns, the right `run` call is issued with rate
`(sum - diff) / 2` on the state the left call left behind, and whatever the right call
returns nothing further is issued: the world after `drive` is the one after exactly these
two actuator commands, on every path. -/
theorem drive_attempts_both (M_PI : α) (hw : Actuators σ α)
    (self : robotics_DriveBase_obj_t α) (speed steering : mp_obj_t α) (s t : α)
    (hs : mp_obj_get_num speed = Except.ok s) (ht : mp_obj_get_num steering = Except.ok t)
    (w : World σ α) :
    (robotics_DriveBase_drive M_PI hw self speed steering w).2 =
      ⟨(hw.run self.port_right
          ((s / self.wheel_diameter * (720 / M_PI)
            - 2 * self.axle_track / self.wheel_diameter * t) / 2)
          (hw.run self.port_left
            ((s / self.wheel_diameter * (720 / M_PI)
              + 2 * self.axle_track / self.wheel_diameter * t) / 2) w.hw).2).2,
        w.log ++ [Event.thread_enter,
          Event.run self.port_left
            ((s / self.wheel_diameter * (720 / M_PI)
              + 2 * self.axle_track / self.wheel_diameter * t) / 2),
          Event.run self.port_right
            ((s / self.wheel_diameter * (720 / M_PI)
              - 2 * self.axle_track / self.wheel_diameter * t) / 2),
          Event.thread_exit]⟩ := by
  rw [drive_run M_PI hw self speed steering s t hs ht w]

/-- C8, at an input: the left motor (port A) is not connected; the fake actuators still
receive the left and then the right command, and nothing else. -/
theorem drive_attempts_both_witness :
    mp_obj_get_num (mp_obj_t.float (200 : ℝ)) = Except.ok 200 ∧
    mp_obj_get_num (mp_obj_t.float (30 : ℝ)) = Except.ok 30 ∧
    (robotics_DriveBase_drive Real.pi (fake_actuators port_A_unplugged)
        ⟨65, 66, 56, 114⟩ (mp_obj_t.float 200) (mp_obj_t.float 30) World.empty).2 =
      ⟨((fake_actuators port_A_unplugged).run 66
          (((200 : ℝ) / 56 * (720 / Real.pi) - 2 * 114 / 56 * 30) / 2)
          ((fake_actuators port_A_unplugged).run 65
            (((200 : ℝ) / 56 * (720 / Real.pi) + 2 * 114 / 56 * 30) / 2) []).2).2,
        [] ++ [Event.thread_enter,
          Event.run 65 (((200 : ℝ) / 56 * (720 / Real.pi) + 2 * 114 / 56 * 30) / 2),
          Event.run 66 (((200 : ℝ) / 56 * (720 / Real.pi) - 2 * 114 / 56 * 30) / 2),
          Event.thread_exit]⟩ :=
  ⟨rfl, rfl,
    drive_attempts_both Real.pi (fake_actuators port_A_unplugged)
      ⟨65, 66, 56, 114⟩ (mp_obj_t.float 200) (mp_obj_t.float 30) 200 30 rfl rfl
      World.empty⟩

end Commands

/-! ## The stop command -/

section Stop

variable {σ α : Type}

/-- C9, amended: `stop` issues, inside the critical section, one stop command to the
left actuator and then one to the right actuator, both with the same after-stop value:
Coast when the argument is omitted, and when it is given the value `n` of the caller
converted to the 32-bit enumeration type, which is `n` itself for Coast, Brake and Hold
(0, 1, 2).  The right stop is issued whatever the left one returns, and the call raises
the left code if the left stop failed, else the right code if the right stop failed, else
succeeds. -/
theorem stop_issues_left_then_right (hw : Actuators σ α)
    (self : robotics_DriveBase_obj_t α) (n : Int) (w : World σ α) :
    robotics_DriveBase_stop hw self [] w =
      ((if (hw.stop self.port_left PBIO_MOTOR_STOP_COAST w.hw).1 ≠ pbio_error_t.PBIO_SUCCESS
        then Except.error (mp_exc.pbio (hw.stop self.port_left PBIO_MOTOR_STOP_COAST w.hw).1)
        else if (hw.stop self.port_right PBIO_MOTOR_STOP_COAST
            (hw.stop self.port_left PBIO_MOTOR_STOP_COAST w.hw).2).1
            ≠ pbio_error_t.PBIO_SUCCESS
        then Except.error (mp_exc.pbio (hw.stop self.port_right PBIO_MOTOR_STOP_COAST
            (hw.stop self.port_left PBIO_MOTOR_STOP_COAST w.hw).2).1)
        else Except.ok ()),
       ⟨(hw.stop self.port_right PBIO_MOTOR_STOP_COAST
          (hw.stop self.port_left PBIO_MOTOR_STOP_COAST w.hw).2).2,
        w.log ++ [Event.thread_enter, Event.stop self.port_left PBIO_MOTOR_STOP_COAST,
          Event.stop self.port_right PBIO_MOTOR_STOP_COAST, Event.thread_exit]⟩) ∧
    robotics_DriveBase_stop hw self [mp_obj_t.small_int n] w =
      ((if (hw.stop self.port_left (to_after_stop n) w.hw).1 ≠ pbio_error_t.PBIO_SUCCESS
        then Except.error (mp_exc.pbio (hw.stop self.port_left (to_after_stop n) w.hw).1)
        else if (hw.stop self.port_right (to_after_stop n)
            (hw.stop self.port_left (to_after_stop n) w.hw).2).1
            ≠ pbio_error_t.PBIO_SUCCESS
        then Except.error (mp_exc.pbio
          (hw.stop self.port_right (to_after_stop n)
            (hw.stop self.port_left (to_after_stop n) w.hw).2).1)
        else Except.ok ()),
       ⟨(hw.stop self.port_right (to_after_stop n)
          (hw.stop self.port_left (to_after_stop n) w.hw).2).2,
        w.log ++ [Event.thread_enter, Event.stop self.port_left (to_after_stop n),
          Event.stop self.port_right (to_after_stop n), Event.thread_exit]⟩) ∧
    to_after_stop 0 = 0 ∧ to_after_stop 1 = 1 ∧ to_after_stop 2 = 2 := by
  refine ⟨?_, ?_, rfl, rfl, rfl⟩
  · rw [stop_run hw self [] PBIO_MOTOR_STOP_COAST rfl w, pb_assert_both]
  · rw [stop_run hw self [mp_obj_t.small_int n] (to_after_stop n) rfl w, pb_assert_both]

/-- C9, as stated, fails: for the value 4294967297 of the caller, `stop` on connected
motors on ports A and B commands the after-stop value 1 to both actuators, and
4294967297 to neither. -/
theorem stop_value_is_narrowed :
    robotics_DriveBase_stop (fake_actuators all_connected) ⟨65, 66, (56 : ℚ), 114⟩
        [mp_obj_t.small_int 4294967297] World.empty =
      (Except.ok (),
        ⟨[Event.stop 65 1, Event.stop 66 1],
          [Event.thread_enter, Event.stop 65 1, Event.stop 66 1, Event.thread_exit]⟩) ∧
    (1 : pbio_motor_after_stop_t) ≠ 4294967297 := by
  refine ⟨?_, by decide⟩
  rw [stop_run (fake_actuators all_connected) ⟨65, 66, (56 : ℚ), 114⟩
    [mp_obj_t.small_int 4294967297] 1 rfl World.empty, pb_assert_both]
  rfl

end Stop

/-! ## Failure and the unused argument of `drive_time` -/

section DriveTime

variable {σ α : Type} [LinearOrderedField α]

/-- C11: for numeric speed `s` and steering `t`, if the initial drive inside `drive_time`
fails with an error `e` (the left or the right `run` call failed), `drive_time` fails with
that same error in the world the initial drive left: only the two `run` commands of the
initial drive were issued, the delay is not performed and no zero-rate `run` follows. -/
theorem drive_time_initial_failure (M_PI : α) (to_mp_uint : α → Nat) (hw : Actuators σ α)
    (self : robotics_DriveBase_obj_t α) (arg1 arg2 arg3 : mp_obj_t α)
    (tail : List (mp_obj_t α)) (s t : α)
    (hs : mp_obj_get_num arg1 = Except.ok s) (ht : mp_obj_get_num arg2 = Except.ok t)
    (w : World σ α) (e : mp_exc)
    (hfail : (robotics_DriveBase_drive M_PI hw self arg1 arg2 w).1 = Except.error e) :
    robotics_DriveBase_drive_time M_PI to_mp_uint hw self (arg1 :: arg2 :: arg3 :: tail) w =
      (Except.error e, (robotics_DriveBase_drive M_PI hw self arg1 arg2 w).2) ∧
    (robotics_DriveBase_drive_time M_PI to_mp_uint hw self (arg1 :: arg2 :: arg3 :: tail) w).2 =
      ⟨(hw.run self.port_right
          ((s / self.wheel_diameter * (720 / M_PI)
            - 2 * self.axle_track / self.wheel_diameter * t) / 2)
          (hw.run self.port_left
            ((s / self.wheel_diameter * (720 / M_PI)
              + 2 * self.axle_track / self.wheel_diameter * t) / 2) w.hw).2).2,
        w.log ++ [Event.thread_enter,
          Event.run self.port_left
            ((s / self.wheel_diameter * (720 / M_PI)
              + 2 * self.axle_track / self.wheel_diameter * t) / 2),
          Event.run self.port_right
            ((s / self.wheel_diameter * (720 / M_PI)
              - 2 * self.axle_track / self.wheel_diameter * t) / 2),
          Event.thread_exit]⟩ := by
  have hpair : robotics_DriveBase_drive M_PI hw self arg1 arg2 w =
      (Except.error e, (robotics_DriveBase_drive M_PI hw self arg1 arg2 w).2) :=
    Prod.ext hfail rfl
  have hstep : robotics_DriveBase_drive_time M_PI to_mp_uint hw self (arg1 :: arg2 :: arg3 :: tail) w =
      (Except.error e, (robotics_DriveBase_drive M_PI hw self arg1 arg2 w).2) := by
    simp only [robotics_DriveBase_drive_time, Exec.bind_apply]
    rw [hpair]
  refine ⟨hstep, ?_⟩
  rw [hstep, drive_run M_PI hw self arg1 arg2 s t hs ht w]

/-- C11, at an input: the left motor (port A) is not connected, so the initial drive of
`drive_time(100, 0, 1000)` raises `PBIO_ERROR_NO_DEV`. -/
theorem drive_time_initial_failure_witness :
    mp_obj_get_num (mp_obj_t.float (100 : ℝ)) = Except.ok 100 ∧
    mp_obj_get_num (mp_obj_t.float (0 : ℝ)) = Except.ok 0 ∧
    (robotics_DriveBase_drive Real.pi (fake_actuators port_A_unplugged) ⟨65, 66, 56, 114⟩
        (mp_obj_t.float 100) (mp_obj_t.float 0) World.empty).1
      = Except.error (mp_exc.pbio pbio_error_t.PBIO_ERROR_NO_DEV) ∧
    robotics_DriveBase_drive_time Real.pi Nat.floor (fake_actuators port_A_unplugged)
        ⟨65, 66, 56, 114⟩
        (mp_obj_t.float 100 :: mp_obj_t.float 0 :: mp_obj_t.float 1000 :: []) World.empty =
      (Except.error (mp_exc.pbio pbio_error_t.PBIO_ERROR_NO_DEV),
        (robotics_DriveBase_drive Real.pi (fake_actuators port_A_unplugged)
          ⟨65, 66, 56, 114⟩ (mp_obj_t.float 100) (mp_obj_t.float 0) World.empty).2) ∧
    (robotics_DriveBase_drive_time Real.pi Nat.floor (fake_actuators port_A_unplugged)
        ⟨65, 66, 56, 114⟩
        (mp_obj_t.float 100 :: mp_obj_t.float 0 :: mp_obj_t.float 1000 :: [])
        World.empty).2 =
      ⟨((fake_actuators port_A_unplugged).run 66
          (((100 : ℝ) / 56 * (720 / Real.pi) - 2 * 114 / 56 * 0) / 2)
          ((fake_actuators port_A_unplugged).run 65
            (((100 : ℝ) / 56 * (720 / Real.pi) + 2 * 114 / 56 * 0) / 2) []).2).2,
        [] ++ [Event.thread_enter,
          Event.run 65 (((100 : ℝ) / 56 * (720 / Real.pi) + 2 * 114 / 56 * 0) / 2),
          Event.run 66 (((100 : ℝ) / 56 * (720 / Real.pi) - 2 * 114 / 56 * 0) / 2),
          Event.thread_exit]⟩ :=
  ⟨rfl, rfl, rfl,
    drive_time_initial_failure Real.pi Nat.floor (fake_actuators port_A_unplugged) ⟨65, 66, 56, 114⟩
      (mp_obj_t.float 100) (mp_obj_t.float 0) (mp_obj_t.float 1000) [] 100 0 rfl rfl
      World.empty (mp_exc.pbio pbio_error_t.PBIO_ERROR_NO_DEV) rfl⟩

/-- C12: `drive_time` does not depend on the after-stop argument: for all first three
arguments, every actuator layer and every world, two calls that differ only in what
follows the duration (any two values, or a value and nothing) reach the same world, with
the same log of actuator and delay calls, and return the same result. -/
theorem drive_time_ignores_after_stop (M_PI : α) (to_mp_uint : α → Nat)
    (hw : Actuators σ α)
    (self : robotics_DriveBase_obj_t α) (arg1 arg2 arg3 : mp_obj_t α)
    (tail tail2 : List (mp_obj_t α)) (w : World σ α) :
    robotics_DriveBase_drive_time M_PI to_mp_uint hw self (arg1 :: arg2 :: arg3 :: tail) w =
      robotics_DriveBase_drive_time M_PI to_mp_uint hw self (arg1 :: arg2 :: arg3 :: tail2) w := by
  simp only [robotics_DriveBase_drive_time]

end DriveTime

/-! ## The critical section -/

section CriticalSection

variable {σ α : Type} [LinearOrderedField α]

/-- C13: in every execution of `drive` (numeric arguments) and of `stop` (after-stop
omitted or given as `n`, which is converted to the enumeration type), whatever the two
actuator calls return, the events added to the log are: one enter, the left command, the
right command, one exit.  The monitor accepts them from the state not held and ends not
held, so no actuator is called outside the section and the section is left in the world
in which the call returns or raises. -/
theorem critical_section_drive_stop (M_PI : α) (hw : Actuators σ α)
    (self : robotics_DriveBase_obj_t α) (speed steering : mp_obj_t α) (s t : α)
    (hs : mp_obj_get_num speed = Except.ok s) (ht : mp_obj_get_num steering = Except.ok t)
    (n : Int) (w : World σ α) :
    ((robotics_DriveBase_drive M_PI hw self speed steering w).2.log.drop w.log.length =
        [Event.thread_enter,
          Event.run self.port_left
            ((s / self.wheel_diameter * (720 / M_PI)
              + 2 * self.axle_track / self.wheel_diameter * t) / 2),
          Event.run self.port_right
            ((s / self.wheel_diameter * (720 / M_PI)
              - 2 * self.axle_track / self.wheel_diameter * t) / 2),
          Event.thread_exit] ∧
      critical_section false
        ((robotics_DriveBase_drive M_PI hw self speed steering w).2.log.drop w.log.length)
        = some false) ∧
    ((robotics_DriveBase_stop hw self [] w).2.log.drop w.log.length =
        [Event.thread_enter, Event.stop self.port_left PBIO_MOTOR_STOP_COAST,
          Event.stop self.port_right PBIO_MOTOR_STOP_COAST, Event.thread_exit] ∧
      critical_section false
        ((robotics_DriveBase_stop hw self [] w).2.log.drop w.log.length) = some false) ∧
    ((robotics_DriveBase_stop hw self [mp_obj_t.small_int n] w).2.log.drop w.log.length =
        [Event.thread_enter, Event.stop self.port_left (to_after_stop n),
          Event.stop self.port_right (to_after_stop n), Event.thread_exit] ∧
      critical_section false
        ((robotics_DriveBase_stop hw self [mp_obj_t.small_int n] w).2.log.drop
          w.log.length) = some false) := by
  rw [drive_run M_PI hw self speed steering s t hs ht w,
    stop_run hw self [] PBIO_MOTOR_STOP_COAST rfl w,
    stop_run hw self [mp_obj_t.small_int n] (to_after_stop n) rfl w]
  simp [critical_section]

/-- C13, at an input: the left motor (port A) is not connected, `drive(200, 30)` and
`stop` fail, and the section was entered once and left once around the two commands. -/
theorem critical_section_drive_stop_witness :
    mp_obj_get_num (mp_obj_t.float (200 : ℝ)) = Except.ok 200 ∧
    mp_obj_get_num (mp_obj_t.float (30 : ℝ)) = Except.ok 30 ∧
    ((robotics_DriveBase_drive Real.pi (fake_actuators port_A_unplugged) ⟨65, 66, 56, 114⟩
          (mp_obj_t.float 200) (mp_obj_t.float 30) World.empty).2.log.drop
          (World.empty : World (List (Event ℝ)) ℝ).log.length =
        [Event.thread_enter,
          Event.run 65 (((200 : ℝ) / 56 * (720 / Real.pi) + 2 * 114 / 56 * 30) / 2),
          Event.run 66 (((200 : ℝ) / 56 * (720 / Real.pi) - 2 * 114 / 56 * 30) / 2),
          Event.thread_exit] ∧
      critical_section false
        ((robotics_DriveBase_drive Real.pi (fake_actuators port_A_unplugged)
          ⟨65, 66, 56, 114⟩ (mp_obj_t.float 200) (mp_obj_t.float 30) World.empty).2.log.drop
          (World.empty : World (List (Event ℝ)) ℝ).log.length)
        = some false) ∧
    ((robotics_DriveBase_stop (fake_actuators port_A_unplugged) ⟨65, 66, 56, 114⟩ []
          (World.empty : World (List (Event ℝ)) ℝ)).2.log.drop
          (World.empty : World (List (Event ℝ)) ℝ).log.length =
        [Event.thread_enter, Event.stop 65 PBIO_MOTOR_STOP_COAST,
          Event.stop 66 PBIO_MOTOR_STOP_COAST, Event.thread_exit] ∧
      critical_section false
        ((robotics_DriveBase_stop (fake_actuators port_A_unplugged) ⟨65, 66, 56, 114⟩ []
          (World.empty : World (List (Event ℝ)) ℝ)).2.log.drop
          (World.empty : World (List (Event ℝ)) ℝ).log.length) = some false) ∧
    ((robotics_DriveBase_stop (fake_actuators port_A_unplugged) ⟨65, 66, 56, 114⟩
          [mp_obj_t.small_int 2] (World.empty : World (List (Event ℝ)) ℝ)).2.log.drop
          (World.empty : World (List (Event ℝ)) ℝ).log.length =
        [Event.thread_enter, Event.stop 65 (to_after_stop 2), Event.stop 66 (to_after_stop 2),
          Event.thread_exit] ∧
      critical_section false
        ((robotics_DriveBase_stop (fake_actuators port_A_unplugged) ⟨65, 66, 56, 114⟩
          [mp_obj_t.small_int 2] (World.empty : World (List (Event ℝ)) ℝ)).2.log.drop
          (World.empty : World (List (Event ℝ)) ℝ).log.length) = some false) :=
  ⟨rfl, rfl,
    critical_section_drive_stop Real.pi (fake_actuators port_A_unplugged) ⟨65, 66, 56, 114⟩
      (mp_obj_t.float 200) (mp_obj_t.float 30) 200 30 rfl rfl 2 World.empty⟩

end CriticalSection

/-! ## The object across calls -/

section FrameLemmas

variable {σ α : Type}

theorem MethodExec.bind_on_machine {β γ : Type} (x : MethodExec σ α β)
    (f : β → MethodExec σ α γ) (m : Machine σ α) :
    (x >>= f) m = match x m with
      | (Except.ok v, m1) => f v m1
      | (Except.error e, m1) => (Except.error e, m1) := rfl

theorem leaves_self_pure {β : Type} (v : β) :
    MethodExec.leaves_self (pure v : MethodExec σ α β) :=
  fun _ => rfl

theorem leaves_self_get {β : Type} (field : robotics_DriveBase_obj_t α → β) :
    MethodExec.leaves_self (self_get field : MethodExec σ α β) :=
  fun _ => rfl

theorem leaves_self_of_world {β : Type} (step : Exec σ α β) :
    MethodExec.leaves_self (MethodExec.of_world step) :=
  fun _ => rfl

theorem leaves_self_bind {β γ : Type} (x : MethodExec σ α β) (f : β → MethodExec σ α γ)
    (hx : MethodExec.leaves_self x) (hf : ∀ v, MethodExec.leaves_self (f v)) :
    MethodExec.leaves_self (x >>= f) := by
  intro m
  show (MethodExec.bind x f m).2.self = m.self
  unfold MethodExec.bind
  have h1 := hx m
  cases hxm : x m with
  | mk r m1 =>
    rw [hxm] at h1
    cases r with
    | ok v => exact (hf v m1).trans h1
    | error e => exact h1

theorem stop_leaves_self (hw : Actuators σ α) (rest : List (mp_obj_t α)) :
    MethodExec.leaves_self (Machine.stop hw rest : MethodExec σ α Unit) := by
  unfold Machine.stop
  repeat' first
    | exact leaves_self_pure _
    | exact leaves_self_get _
    | exact leaves_self_of_world _
    | apply leaves_self_bind
    | intro _

/-- The body of `stop` on the machine is the function `robotics_DriveBase_stop` on the
object read through the pointer. -/
theorem machine_stop_eq (hw : Actuators σ α) (rest : List (mp_obj_t α)) (m : Machine σ α) :
    Machine.stop hw rest m =
      ((robotics_DriveBase_stop hw m.self rest m.world).1,
        ⟨m.self, (robotics_DriveBase_stop hw m.self rest m.world).2⟩) := by
  cases h : (match rest with
      | arg1 :: _ => (mp_obj_get_int arg1).map to_after_stop
      | [] => Except.ok PBIO_MOTOR_STOP_COAST) with
  | error e =>
    simp [Machine.stop, robotics_DriveBase_stop, MethodExec.bind_on_machine, Exec.bind_apply,
      MethodExec.of_world, Exec.lift_apply, h]
  | ok after_stop =>
    simp only [Machine.stop, robotics_DriveBase_stop, MethodExec.bind_on_machine,
      Exec.bind_apply, MethodExec.of_world, Exec.lift_apply, h, self_get,
      pb_thread_enter, pb_thread_exit, pbio_motor_stop, World.record]
    unfold pb_assert
    split_ifs <;> rfl

/-- The property is not empty: a body that assigns to a field does not have it. -/
theorem self_set_is_seen :
    ¬ MethodExec.leaves_self
      (self_set (fun self => ⟨self.port_left, self.port_right, 0, self.axle_track⟩) :
        MethodExec Unit ℚ Unit) := by
  intro h
  have h1 := h ⟨⟨65, 66, 56, 114⟩, ⟨(), []⟩⟩
  simp [self_set] at h1

end FrameLemmas

section Frame

variable {σ α : Type} [IntCast α] [Add α] [Sub α] [Mul α] [Div α] [OfNat α 2] [OfNat α 720]

theorem drive_leaves_self (M_PI : α) (hw : Actuators σ α) (speed steering : mp_obj_t α) :
    MethodExec.leaves_self (Machine.drive M_PI hw speed steering) := by
  unfold Machine.drive
  repeat' first
    | exact leaves_self_pure _
    | exact leaves_self_get _
    | exact leaves_self_of_world _
    | apply leaves_self_bind
    | intro _

/-- The body of `drive` on the machine is the function `robotics_DriveBase_drive` on the
object read through the pointer. -/
theorem machine_drive_eq (M_PI : α) (hw : Actuators σ α) (speed steering : mp_obj_t α)
    (m : Machine σ α) :
    Machine.drive M_PI hw speed steering m =
      ((robotics_DriveBase_drive M_PI hw m.self speed steering m.world).1,
        ⟨m.self, (robotics_DriveBase_drive M_PI hw m.self speed steering m.world).2⟩) := by
  cases hs : mp_obj_get_num speed with
  | error e =>
    simp [Machine.drive, robotics_DriveBase_drive, MethodExec.bind_on_machine, Exec.bind_apply,
      MethodExec.of_world, Exec.lift_apply, hs]
  | ok s =>
    cases ht : mp_obj_get_num steering with
    | error e =>
      simp [Machine.drive, robotics_DriveBase_drive, MethodExec.bind_on_machine, Exec.bind_apply,
        MethodExec.of_world, Exec.lift_apply, hs, ht, self_get]
    | ok t =>
      simp only [Machine.drive, robotics_DriveBase_drive, MethodExec.bind_on_machine,
        Exec.bind_apply, MethodExec.of_world, Exec.lift_apply, hs, ht, self_get,
        pb_thread_enter, pb_thread_exit, pbio_motor_run, World.record]
      unfold pb_assert
      split_ifs <;> rfl

/-- The body of `drive_time` on the machine is the function
`robotics_DriveBase_drive_time` on the object read through the pointer. -/
theorem machine_drive_time_eq (M_PI : α) (to_mp_uint : α → Nat) (hw : Actuators σ α)
    (rest : List (mp_obj_t α)) (m : Machine σ α) :
    Machine.drive_time M_PI to_mp_uint hw rest m =
      ((robotics_DriveBase_drive_time M_PI to_mp_uint hw m.self rest m.world).1,
        ⟨m.self, (robotics_DriveBase_drive_time M_PI to_mp_uint hw m.self rest m.world).2⟩) := by
  unfold Machine.drive_time robotics_DriveBase_drive_time
  split
  · rename_i arg1 arg2 arg3 tail
    simp only [MethodExec.bind_on_machine, Exec.bind_apply, machine_drive_eq]
    cases robotics_DriveBase_drive M_PI hw m.self arg1 arg2 m.world with
    | mk r w1 =>
      cases r with
      | error e => rfl
      | ok u =>
        cases hms : mp_obj_get_num arg3 with
        | error e => simp [MethodExec.of_world, Exec.lift_apply, hms]
        | ok ms =>
          simp only [MethodExec.of_world, Exec.lift_apply, hms, mp_hal_delay_ms,
            machine_drive_eq]
          cases robotics_DriveBase_drive M_PI hw m.self (MP_OBJ_NEW_SMALL_INT 0)
              (MP_OBJ_NEW_SMALL_INT 0)
              (World.record ⟨hw.delay_ms (to_mp_uint ms) w1.hw, w1.log⟩
                (Event.delay_ms (to_mp_uint ms))) with
          | mk r2 w2 =>
            cases r2 with
            | error e => rfl
            | ok u2 => rfl
  · rfl

theorem drive_time_leaves_self (M_PI : α) (to_mp_uint : α → Nat) (hw : Actuators σ α)
    (rest : List (mp_obj_t α)) :
    MethodExec.leaves_self (Machine.drive_time M_PI to_mp_uint hw rest) := by
  unfold Machine.drive_time
  split
  · repeat' first
      | exact drive_leaves_self _ _ _ _
      | exact leaves_self_pure _
      | exact leaves_self_of_world _
      | apply leaves_self_bind
      | intro _
  · exact leaves_self_of_world _

/-- C14: `drive`, `stop` and `drive_time`, run on the object behind their `self` pointer,
leave that object, that is its four fields left port, right port, wheel diameter and axle
track, unchanged, whatever the arguments and whether the call returns or raises; hence
after every sequence of calls, failed ones included, the object is the one the sequence
started with. -/
theorem methods_leave_fields (M_PI : α) (to_mp_uint : α → Nat) (hw : Actuators σ α)
    (m : Machine σ α) (c : Call α) (cs : List (Call α)) :
    (Machine.call M_PI to_mp_uint hw m c).2.self = m.self ∧
    (Machine.run_calls M_PI to_mp_uint hw m cs).self = m.self := by
  have hcall : ∀ (m : Machine σ α) (c : Call α),
      (Machine.call M_PI to_mp_uint hw m c).2.self = m.self := by
    intro m c
    cases c with
    | drive speed steering => exact drive_leaves_self M_PI hw speed steering m
    | stop rest => exact stop_leaves_self hw rest m
    | drive_time rest => exact drive_time_leaves_self M_PI to_mp_uint hw rest m
  refine ⟨hcall m c, ?_⟩
  induction cs generalizing m with
  | nil => rfl
  | cons c cs ih =>
    simp only [Machine.run_calls]
    rw [ih, hcall]

end Frame

/-! ## Stopping twice -/

section StopTwice

variable {σ α : Type}

/-- C15: when the stop of the actuator layer is idempotent, that is a second stop with
the same after-stop value on the same port returns the same result and leaves the
actuator state unchanged, whether it follows the first at once (`stop_idempotent`) or
after the stop of the other port (`stop_idempotent_across`), calling `stop` twice in a
row with the same arguments yields the same result and the same final actuator state as
calling it once. -/
theorem stop_twice_same (hw : Actuators σ α) (hidem : stop_idempotent hw)
    (hacross : stop_idempotent_across hw) (self : robotics_DriveBase_obj_t α)
    (rest : List (mp_obj_t α)) (w : World σ α) :
    (robotics_DriveBase_stop hw self rest (robotics_DriveBase_stop hw self rest w).2).1 =
      (robotics_DriveBase_stop hw self rest w).1 ∧
    (robotics_DriveBase_stop hw self rest (robotics_DriveBase_stop hw self rest w).2).2.hw =
      (robotics_DriveBase_stop hw self rest w).2.hw := by
  have key : ∀ (after_stop : pbio_motor_after_stop_t),
      (match rest with
        | arg1 :: _ => (mp_obj_get_int arg1).map to_after_stop
        | [] => Except.ok PBIO_MOTOR_STOP_COAST) = Except.ok after_stop →
      (robotics_DriveBase_stop hw self rest (robotics_DriveBase_stop hw self rest w).2).1 =
        (robotics_DriveBase_stop hw self rest w).1 ∧
      (robotics_DriveBase_stop hw self rest
          (robotics_DriveBase_stop hw self rest w).2).2.hw =
        (robotics_DriveBase_stop hw self rest w).2.hw := by
    intro after_stop h
    rw [stop_run hw self rest after_stop h w, stop_run hw self rest after_stop h]
    have h1 := hacross self.port_left self.port_right after_stop w.hw
    have h2 := hidem self.port_right after_stop (hw.stop self.port_left after_stop w.hw).2
    simp only [h1, h2, and_self]
  cases rest with
  | nil => exact key PBIO_MOTOR_STOP_COAST rfl
  | cons arg1 l =>
    cases arg1 with
    | small_int n => exact key (to_after_stop n) rfl
    | motor port =>
      rw [stop_type_error hw self (mp_obj_t.motor port) l rfl w, stop_type_error hw self (mp_obj_t.motor port) l rfl w]
      exact ⟨rfl, rfl⟩
    | float x =>
      rw [stop_type_error hw self (mp_obj_t.float x) l rfl w, stop_type_error hw self (mp_obj_t.float x) l rfl w]
      exact ⟨rfl, rfl⟩
    | other =>
      rw [stop_type_error hw self mp_obj_t.other l rfl w, stop_type_error hw self mp_obj_t.other l rfl w]
      exact ⟨rfl, rfl⟩

/-- C15, at an input: latching actuators with port A not connected, `stop(2)`
on ports A and B from the state in which both motors run. -/
theorem stop_twice_same_witness :
    stop_idempotent
      (latching_actuators port_A_unplugged :
        Actuators (pbio_port_t → Option pbio_motor_after_stop_t) ℚ) ∧
    stop_idempotent_across
      (latching_actuators port_A_unplugged :
        Actuators (pbio_port_t → Option pbio_motor_after_stop_t) ℚ) ∧
    (robotics_DriveBase_stop (latching_actuators port_A_unplugged) ⟨65, 66, (56 : ℚ), 114⟩
        [mp_obj_t.small_int 2]
        (robotics_DriveBase_stop (latching_actuators port_A_unplugged) ⟨65, 66, 56, 114⟩
          [mp_obj_t.small_int 2] ⟨fun _ => none, []⟩).2).1 =
      (robotics_DriveBase_stop (latching_actuators port_A_unplugged) ⟨65, 66, 56, 114⟩
        [mp_obj_t.small_int 2] ⟨fun _ => none, []⟩).1 ∧
    (robotics_DriveBase_stop (latching_actuators port_A_unplugged) ⟨65, 66, (56 : ℚ), 114⟩
        [mp_obj_t.small_int 2]
        (robotics_DriveBase_stop (latching_actuators port_A_unplugged) ⟨65, 66, 56, 114⟩
          [mp_obj_t.small_int 2] ⟨fun _ => none, []⟩).2).2.hw =
      (robotics_DriveBase_stop (latching_actuators port_A_unplugged) ⟨65, 66, 56, 114⟩
        [mp_obj_t.small_int 2] ⟨fun _ => none, []⟩).2.hw :=
  ⟨latching_stop_idempotent port_A_unplugged, latching_stop_idempotent_across port_A_unplugged,
    stop_twice_same (latching_actuators port_A_unplugged)
      (latching_stop_idempotent port_A_unplugged)
      (latching_stop_idempotent_across port_A_unplugged) ⟨65, 66, 56, 114⟩
      [mp_obj_t.small_int 2] ⟨fun _ => none, []⟩⟩

end StopTwice

/-! ## The invariant of construction and the symmetry of the transform -/

section Invariant

variable {σ α : Type} [LinearOrderedField α]

/-- C16, amended: every DriveBase returned by a successful construction was built from
two motor objects and two numbers, stores their two ports and the two numbers as
converted to `float_t`, and satisfies left port ≠ right port and, for stored dimensions
that are numbers, `wheel_diameter ≥ 1` and `axle_track ≥ 1`; hence its
`wheel_diameter`, by which `drive` divides, is not zero. -/
theorem make_new_invariant (to_float_t : α → α) (hw : Actuators σ α) (n_kw : Nat)
    (args : List (mp_obj_t α)) (w w1 : World σ α) (self : robotics_DriveBase_obj_t α)
    (h : robotics_DriveBase_make_new to_float_t hw n_kw args w = (Except.ok self, w1)) :
    (∃ (arg2 arg3 : mp_obj_t α) (wheel_diameter axle_track : α),
      args = [mp_obj_t.motor self.port_left, mp_obj_t.motor self.port_right, arg2, arg3] ∧
      mp_obj_get_num arg2 = Except.ok wheel_diameter ∧
      mp_obj_get_num arg3 = Except.ok axle_track ∧
      self.wheel_diameter = to_float_t wheel_diameter ∧
      self.axle_track = to_float_t axle_track) ∧
    self.port_left ≠ self.port_right ∧
    1 ≤ self.wheel_diameter ∧ 1 ≤ self.axle_track ∧ self.wheel_diameter ≠ 0 := by
  by_cases hkw : n_kw = 0
  swap
  · have hpos : 0 < n_kw := Nat.pos_of_ne_zero hkw
    simp [robotics_DriveBase_make_new, mp_arg_check_num, Exec.bind_apply, Exec.lift_apply,
      hpos] at h
  subst hkw
  rcases args with _ | ⟨a0, _ | ⟨a1, _ | ⟨a2, _ | ⟨a3, _ | ⟨a4, l⟩⟩⟩⟩⟩
  · simp [robotics_DriveBase_make_new, mp_arg_check_num, Exec.bind_apply,
      Exec.lift_apply] at h
  · simp [robotics_DriveBase_make_new, mp_arg_check_num, Exec.bind_apply,
      Exec.lift_apply] at h
  · simp [robotics_DriveBase_make_new, mp_arg_check_num, Exec.bind_apply,
      Exec.lift_apply] at h
  · simp [robotics_DriveBase_make_new, mp_arg_check_num, Exec.bind_apply,
      Exec.lift_apply] at h
  · have hmotor : ∃ pl pr, a0 = mp_obj_t.motor pl ∧ a1 = mp_obj_t.motor pr := by
      cases a0 <;> cases a1 <;>
        first
        | exact ⟨_, _, rfl, rfl⟩
        | simp [robotics_DriveBase_make_new, mp_arg_check_num, Exec.bind_apply,
            Exec.lift_apply, MP_OBJ_IS_TYPE_motor, pb_assert] at h
    obtain ⟨pl, pr, rfl, rfl⟩ := hmotor
    by_cases hp : pl = pr
    · simp [robotics_DriveBase_make_new, mp_arg_check_num, Exec.bind_apply,
        Exec.lift_apply, MP_OBJ_IS_TYPE_motor, get_port, pb_assert, hp] at h
    cases h2 : mp_obj_get_num a2 with
    | error e =>
      simp [robotics_DriveBase_make_new, mp_arg_check_num, Exec.bind_apply,
        Exec.lift_apply, MP_OBJ_IS_TYPE_motor, get_port, pb_assert, hp, h2,
        Exec.pure_apply, Except.map] at h
    | ok wd =>
      cases h3 : mp_obj_get_num a3 with
      | error e =>
        simp [robotics_DriveBase_make_new, mp_arg_check_num, Exec.bind_apply,
          Exec.lift_apply, MP_OBJ_IS_TYPE_motor, get_port, pb_assert, hp, h2, h3,
          Exec.pure_apply, Except.map] at h
      | ok tr =>
        rw [make_new_run to_float_t hw pl pr a2 a3 wd tr h2 h3 w] at h
        by_cases hd : pl = pr ∨ to_float_t wd < 1 ∨ to_float_t tr < 1
        · simp [hd] at h
        · rw [if_neg hd] at h
          have hself : self = ⟨pl, pr, to_float_t wd, to_float_t tr⟩ := by
            have := congrArg Prod.fst h
            simp only [Except.ok.injEq] at this
            exact this.symm
          subst hself
          have hwd : (1 : α) ≤ to_float_t wd :=
            not_lt.mp fun hlt => hd (Or.inr (Or.inl hlt))
          have htr : (1 : α) ≤ to_float_t tr :=
            not_lt.mp fun hlt => hd (Or.inr (Or.inr hlt))
          refine ⟨⟨a2, a3, wd, tr, rfl, h2, h3, rfl, rfl⟩, hp, hwd, htr, ?_⟩
          exact ne_of_gt (lt_of_lt_of_le zero_lt_one hwd)
  · simp [robotics_DriveBase_make_new, mp_arg_check_num, Exec.bind_apply,
      Exec.lift_apply] at h

/-- C16, amended, at an input: the construction on ports A and B with wheel diameter 56.1
and axle track 114, stored as binary32, succeeds and stores 7353139/131072 and 114. -/
theorem make_new_invariant_witness :
    robotics_DriveBase_make_new binary32_round (fake_actuators all_connected) 0
        [mp_obj_t.motor 65, mp_obj_t.motor 66, mp_obj_t.float (561 / 10 : ℚ),
          mp_obj_t.float 114]
        World.empty = (Except.ok ⟨65, 66, 7353139 / 131072, 114⟩, World.empty) ∧
    ((∃ (arg2 arg3 : mp_obj_t ℚ) (wheel_diameter axle_track : ℚ),
      [mp_obj_t.motor 65, mp_obj_t.motor 66, mp_obj_t.float (561 / 10 : ℚ),
          mp_obj_t.float 114] =
        [mp_obj_t.motor 65, mp_obj_t.motor 66, arg2, arg3] ∧
      mp_obj_get_num arg2 = Except.ok wheel_diameter ∧
      mp_obj_get_num arg3 = Except.ok axle_track ∧
      (7353139 / 131072 : ℚ) = binary32_round wheel_diameter ∧
      (114 : ℚ) = binary32_round axle_track) ∧
    (65 : pbio_port_t) ≠ 66 ∧ 1 ≤ (7353139 / 131072 : ℚ) ∧ 1 ≤ (114 : ℚ) ∧
    (7353139 / 131072 : ℚ) ≠ 0) := by
  have h : robotics_DriveBase_make_new binary32_round (fake_actuators all_connected) 0
      [mp_obj_t.motor 65, mp_obj_t.motor 66, mp_obj_t.float (561 / 10 : ℚ),
        mp_obj_t.float 114]
      World.empty = (Except.ok ⟨65, 66, 7353139 / 131072, 114⟩, World.empty) := by
    rw [make_new_run binary32_round (fake_actuators all_connected) 65 66
      (mp_obj_t.float (561 / 10 : ℚ)) (mp_obj_t.float 114) (561 / 10) 114 rfl rfl
      World.empty, binary32_round_56_1, binary32_round_114]
    norm_num
  exact ⟨h, make_new_invariant binary32_round (fake_actuators all_connected) 0
    [mp_obj_t.motor 65, mp_obj_t.motor 66, mp_obj_t.float (561 / 10 : ℚ),
      mp_obj_t.float 114]
    World.empty World.empty ⟨65, 66, 7353139 / 131072, 114⟩ h⟩

/-- C16, as stated, fails: with the dimensions stored as binary32, the construction with
wheel diameter 56.1 returns a DriveBase whose `wheel_diameter` is 7353139/131072
(56.09999847412109375), not the given 56.1. -/
theorem make_new_stores_rounded_dimension :
    robotics_DriveBase_make_new binary32_round (fake_actuators all_connected) 0
        [mp_obj_t.motor 65, mp_obj_t.motor 66, mp_obj_t.float (561 / 10 : ℚ),
          mp_obj_t.float 114]
        World.empty = (Except.ok ⟨65, 66, 7353139 / 131072, 114⟩, ⟨[], []⟩) ∧
    (7353139 / 131072 : ℚ) ≠ 561 / 10 := by
  refine ⟨?_, by norm_num⟩
  rw [make_new_run binary32_round (fake_actuators all_connected) 65 66
    (mp_obj_t.float (561 / 10 : ℚ)) (mp_obj_t.float 114) (561 / 10) 114 rfl rfl
    World.empty, binary32_round_56_1, binary32_round_114]
  norm_num [World.empty]

end Invariant

end Robotics
